import Mathlib

/-!
Shallow embedding of the Cisco IOS ACL generator (`lib/cisco.py`) and proofs
about its per-term rendering, standard-ACL validation, object-group
aggregation and policy translation logic.

External collaborators of the generator (the `nacaddr` / `aclgenerator` /
`ipaddr` modules and the policy parser) are modelled as parameters or as
small spec-derived functions; everything else is translated directly from
the source.
-/

namespace CiscoGen

/-- An address value as consumed by the generator.  The source manipulates
`nacaddr.IPv4` / `nacaddr.IPv6` objects (subclasses of `ipaddr` networks);
only the attributes the generator reads are modelled: the family version,
the textual attribute renderings (`ip`, `network`, `netmask`, `hostmask`,
`with_prefixlen`), `str()` of the whole object, `numhosts`, `prefixlen`
and the capirca `parent_token`. -/
structure Addr where
  version : Nat
  ip : String
  network : String
  netmask : String
  hostmask : String
  withPrefixlen : String
  strRep : String
  numhosts : Nat
  prefixlen : Nat
  parent_token : String
  deriving DecidableEq

/-- One entry of a term's verbatim list: `next_verbatim.value[0]` is the
platform tag, `next_verbatim.value[1]` the literal text. -/
structure VerbatimEntry where
  platform : String
  text : String
  deriving DecidableEq

/-- The policy term fields read by `lib/cisco.py` (consumed from the external
policy model).  `counter` and `logging` are modelled as booleans
(the source only tests their truthiness), `owner` as a string with `""`
meaning unset, `expiration` as an optional day number. -/
structure Term where
  name : String := ""
  action : List String := []
  protocol : List String := []
  address : List Addr := []
  source_address : List Addr := []
  source_address_exclude : List Addr := []
  destination_address : List Addr := []
  destination_address_exclude : List Addr := []
  source_port : List (Int × Int) := []
  destination_port : List (Int × Int) := []
  icmp_type : List String := []
  option : List String := []
  verbatim : List VerbatimEntry := []
  platform : List String := []
  platform_exclude : List String := []
  owner : String := ""
  logging : Bool := false
  counter : Bool := false
  comment : List String := []
  expiration : Option Nat := none
  deriving DecidableEq

/-- `_ACTION_TABLE` from the source, as a partial lookup
(`dict.get` returns `None` on a missing key). -/
def actionTable : String → Option String
  | "accept" => some "permit"
  | "deny" => some "deny"
  | "reject" => some "deny"
  | "next" => some "! next"
  | "reject-with-tcp-rst" => some "deny"
  | _ => none

/-- `str(self.term.action[0])` fed through `_ACTION_TABLE.get`; a missing
entry would render as the string `None` in Python's `%s` formatting. -/
def actionOf (t : Term) : String :=
  (actionTable (t.action.headD "")).getD "None"

/-- Python whitespace class `\s` over the characters that can occur here. -/
def isPySpace (c : Char) : Bool :=
  c = ' ' ∨ c = '\t' ∨ c = '\n' ∨ c = '\x0b' ∨ c = '\x0c' ∨ c = '\r'

/-- Helper for `re.sub(r'\s+', ' ', x)`: collapse every run of whitespace
into a single space.  The boolean records whether the previous character
was part of a whitespace run. -/
def squeezeAux : Bool → List Char → List Char
  | _, [] => []
  | prevSpace, c :: rest =>
    if isPySpace c then
      if prevSpace then squeezeAux true rest
      else ' ' :: squeezeAux true rest
    else c :: squeezeAux false rest

/-- `re.sub(r'\s+', ' ', s)`. -/
def squeeze (s : String) : String := String.mk (squeezeAux false s.data)

/-- Python's `str.rstrip()` (no argument: strips trailing whitespace). -/
def pyRstrip (s : String) : String :=
  String.mk ((s.data.reverse.dropWhile (fun c => isPySpace c)).reverse)

/-- Python's `str.lstrip()` (no argument). -/
def pyLstrip (s : String) : String :=
  String.mk (s.data.dropWhile (fun c => isPySpace c))

/-- Python's `str.strip()` (no argument): trimming on both sides. -/
def pyStrip (s : String) : String := pyLstrip (pyRstrip s)

/-- Worker for `pySplit`: accumulates the current field (reversed). -/
def splitCharAux (c0 : Char) : List Char → List Char → List String
  | acc, [] => [String.mk acc.reverse]
  | acc, c :: rest =>
    if c = c0 then String.mk acc.reverse :: splitCharAux c0 [] rest
    else splitCharAux c0 (c :: acc) rest

/-- Python's `str.split(sep)` for a one-character separator
(`''.split(c)` is `['']`, like the source's `comment.split('\n')`). -/
def pySplit (c0 : Char) (s : String) : List String :=
  splitCharAux c0 [] s.data

/-- Python's `s[:n]` slice (by characters). -/
def pyTake (s : String) (n : Nat) : String := String.mk (s.data.take n)

/-- Whether the second character list starts with the first. -/
def startsWithChars : List Char → List Char → Bool
  | _, [] => true
  | [], _ :: _ => false
  | pat, c :: rest =>
    match pat with
    | [] => true
    | p :: ps => p = c && startsWithChars ps rest

/-- Whether the pattern occurs as a contiguous run inside the list. -/
def occursIn (pat : List Char) : List Char → Bool
  | [] => pat.isEmpty
  | c :: rest => startsWithChars pat (c :: rest) || occursIn pat rest

/-- `str.isdigit()` for the ASCII strings used as filter names:
non-empty and all characters decimal digits. -/
def isDigitStr (s : String) : Bool :=
  s ≠ "" ∧ s.data.all (fun c => c.isDigit)

/-- `int(s)` for a digit string. -/
def strToNat (s : String) : Nat :=
  s.data.foldl (fun acc c => acc * 10 + (c.toNat - 48)) 0

/-- `_IOS_PORTS_TCP` from `Term._TermPortToProtocol`. -/
def iosPortsTcp : List (Int × String) :=
  [(179, "bgp"), (19, "chargen"), (514, "cmd"), (13, "daytime"),
   (9, "discard"), (53, "domain"), (7, "echo"), (512, "exec"),
   (79, "finger"), (21, "ftp"), (20, "ftp-data"), (70, "gopher"),
   (101, "hostname"), (113, "ident"), (194, "irc"), (543, "klogin"),
   (544, "kshell"), (513, "login"), (515, "lpd"), (119, "nntp"),
   (496, "pim-auto-rp"), (109, "pop2"), (110, "pop3"), (25, "smtp"),
   (111, "sunrpc"), (49, "tacacs"), (517, "talk"), (23, "telnet"),
   (37, "time"), (540, "uucp"), (43, "whois"), (80, "www")]

/-- `_IOS_PORTS_UDP` from `Term._TermPortToProtocol`. -/
def iosPortsUdp : List (Int × String) :=
  [(512, "biff"), (68, "bootpc"), (67, "bootps"), (9, "discard"),
   (195, "dnsix"), (53, "domain"), (7, "echo"), (500, "isakmp"),
   (434, "mobile-ip"), (42, "nameserver"), (138, "netbios-dgm"),
   (137, "netbios-ns"), (139, "netbios-ss"), (4500, "non500-isakmp"),
   (123, "ntp"), (496, "pim-auto-rp"), (520, "rip"), (161, "snmp"),
   (162, "snmptrap"), (111, "sunrpc"), (514, "syslog"), (49, "tacacs"),
   (517, "talk"), (69, "tftp"), (37, "time"), (513, "who"), (177, "xdmcp")]

/-- `_CISCO_TYPES_ICMP` from `Term._TermPortToProtocol`. -/
def ciscoTypesIcmp : List (Int × String) :=
  [(6, "alternate-address"), (31, "conversion-error"), (8, "echo"),
   (0, "echo-reply"), (16, "information-reply"), (15, "information-request"),
   (18, "mask-reply"), (17, "mask-request"), (32, "mobile-redirect"),
   (12, "parameter-problem"), (5, "redirect"), (9, "router-advertisement"),
   (10, "router-solicitation"), (4, "source-quench"), (11, "time-exceeded"),
   (14, "timestamp-reply"), (13, "timestamp-request"), (30, "traceroute"),
   (3, "unreachable")]

/-- `_CISCO_TYPES_ICMPv6` from `Term._TermPortToProtocol`. -/
def ciscoTypesIcmpv6 : List (Int × String) :=
  [(1, "unreachable"), (2, "packet-too-big"), (3, "time-exceeded"),
   (4, "parameter-problem"), (128, "echo-request"), (129, "echo-reply")]

/-- `Term._TermPortToProtocol`, fused with the `%s` / `str()` rendering of
its result.  A `none` port stands for the `''` ICMP placeholder (which is
never a key of the integer-keyed tables, so the source returns it
unchanged and `str('')` is `''`); a found entry yields its keyword, and a
miss yields the decimal rendering of the number. -/
def termPortToProtocol (af : Nat) (portNumber : Option Int) (proto : String) : String :=
  match portNumber with
  | none => ""
  | some n =>
    if proto = "tcp" then
      match iosPortsTcp.lookup n with
      | some s => s
      | none => toString n
    else if proto = "udp" then
      match iosPortsUdp.lookup n with
      | some s => s
      | none => toString n
    else if proto = "icmp" then
      if af = 4 then
        match ciscoTypesIcmp.lookup n with
        | some s => s
        | none => toString n
      else if af = 6 then
        match ciscoTypesIcmpv6.lookup n with
        | some s => s
        | none => toString n
      else toString n
    else toString n

/-- A resolved address slot of the extended renderer: either the literal
sentinel string `'any'` (undeclared address list) or an address object. -/
inductive CAddr where
  | str (s : String)
  | ip (a : Addr)
  deriving DecidableEq

/-- `Term._AddressToStr`.  In the source the two `if` statements are
effectively exclusive (the first rebinds `addr` to a string, which the
second type test then rejects); a plain string such as `'any'` falls
through both tests and is returned unchanged. -/
def addressToStr : CAddr → String
  | .str s => s
  | .ip a =>
    if a.version = 4 then
      if a.numhosts > 1 then a.ip ++ " " ++ a.hostmask
      else "host " ++ a.ip
    else if a.version = 6 then
      if a.numhosts > 1 then a.withPrefixlen
      else "host " ++ a.ip
    else a.strRep

/-- The loop body of `Term._FixConsecutivePorts`: a two-value contiguous
range is expanded into two singleton pairs, anything else is kept. -/
def splitPair (p : Int × Int) : List (Int × Int) :=
  if p.1 = p.2 - 1 then [(p.1, p.1), (p.2, p.2)] else [(p.1, p.2)]

/-- `Term._FixConsecutivePorts`. -/
def fixConsecutivePorts (port_list : List (Int × Int)) : List (Int × Int) :=
  port_list.flatMap splitPair

/-- `Term._TermletToStr`.  The port arguments use `none` for the `()`
placeholder; the icmp argument uses `none` for the `''` placeholder.
The `PROTO_MAP['udp']` comparison of the source can never match here
because the protocol is always a string (the numeric-protocol conversion
in `Term.__str__` is commented out), so only the `proto == 'udp'` test
remains.  The result is always a single already-squeezed line. -/
def termletToStr (af : Nat) (action proto : String) (saddr daddr : CAddr)
    (sport dport : Option (Int × Int)) (icmp_type : Option Int)
    (option : List String) : List String :=
  let saddrS := addressToStr saddr
  let daddrS := addressToStr daddr
  let sportS :=
    match sport with
    | none => ""
    | some p =>
      if p.1 ≠ p.2 then
        " range " ++ termPortToProtocol af (some p.1) proto ++ " " ++
          termPortToProtocol af (some p.2) proto
      else " eq " ++ termPortToProtocol af (some p.1) proto
  let dportS :=
    match dport with
    | none => ""
    | some p =>
      if p.1 ≠ p.2 then
        " range " ++ termPortToProtocol af (some p.1) proto ++ " " ++
          termPortToProtocol af (some p.2) proto
      else " eq " ++ termPortToProtocol af (some p.1) proto
  let option1 := if option = [] then [""] else option
  let sane_options :=
    if proto = "udp" ∧ "established" ∈ option1 then option1.erase "established"
    else option1
  let icmpS := termPortToProtocol af icmp_type "icmp"
  let raw :=
    if icmpS ≠ "" then
      " " ++ action ++ " " ++ proto ++ " " ++ saddrS ++ " " ++ sportS ++ " " ++
        daddrS ++ " " ++ dportS ++ " " ++ icmpS ++ " " ++
        String.intercalate " " sane_options
    else
      " " ++ action ++ " " ++ proto ++ " " ++ saddrS ++ " " ++ sportS ++ " " ++
        daddrS ++ " " ++ dportS ++ " " ++ String.intercalate " " sane_options
  [pyRstrip (squeeze raw)]

/-- The protocol-list resolution of `Term.__str__`: an empty list becomes
the family default, the literal `['hop-by-hop']` becomes `['hbh']`, and
everything else passes through unchanged (for both values of `proto_int`
the numeric conversion is commented out in the source). -/
def resolveProtocol (t : Term) (af : Nat) : List String :=
  if t.protocol = [] then (if af = 6 then ["ipv6"] else ["ip"])
  else if t.protocol = ["hop-by-hop"] then ["hbh"]
  else t.protocol

/-- Modelled from the spec: the external family-aware address resolution
`AddressesForFamily` (`aclgenerator.Term.GetAddressOfVersion`, not under
`src/`) keeps the addresses of the requested family. -/
def getAddressOfVersion (addrs : List Addr) (af : Nat) : List Addr :=
  addrs.filter (fun x => x.version = af)

/-- The address-resolution step of `Term.__str__` for one direction:
family-filter the declared list, and if the family-filtered exclude list
is non-empty subtract it via the external `nacaddr.ExcludeAddrs`
(passed in as `excl`). -/
def resolveAddrs (excl : List Addr → List Addr → List Addr)
    (addrs excludes : List Addr) (af : Nat) : List Addr :=
  let a := getAddressOfVersion addrs af
  let e := getAddressOfVersion excludes af
  if e = [] then a else excl a e

/-- The source-address list iterated by `Term.__str__`: the `'any'`
sentinel when undeclared, otherwise the resolved addresses. -/
def srcList (excl : List Addr → List Addr → List Addr) (t : Term) (af : Nat) :
    List CAddr :=
  if t.source_address = [] then [CAddr.str "any"]
  else (resolveAddrs excl t.source_address t.source_address_exclude af).map CAddr.ip

/-- The destination-address list iterated by `Term.__str__`. -/
def dstList (excl : List Addr → List Addr → List Addr) (t : Term) (af : Nat) :
    List CAddr :=
  if t.destination_address = [] then [CAddr.str "any"]
  else (resolveAddrs excl t.destination_address t.destination_address_exclude af).map CAddr.ip

/-- The source-port list iterated by `Term.__str__`: the `()` placeholder
when undeclared, otherwise the consecutive-port-split of the declared
ranges. -/
def sportList (t : Term) : List (Option (Int × Int)) :=
  if t.source_port = [] then [none]
  else (fixConsecutivePorts t.source_port).map some

/-- The destination-port list iterated by `Term.__str__`. -/
def dportList (t : Term) : List (Option (Int × Int)) :=
  if t.destination_port = [] then [none]
  else (fixConsecutivePorts t.destination_port).map some

/-- The icmp-type list iterated by `Term.__str__`: the `''` placeholder
when undeclared, otherwise the result of the external
`aclgenerator.Term.NormalizeIcmpTypes` (passed in as `norm`). -/
def icmpList (norm : List String → List String → Nat → List Int)
    (t : Term) (af : Nat) : List (Option Int) :=
  if t.icmp_type = [] then [none]
  else (norm t.icmp_type t.protocol af).map some

/-- The option list built by `Term.__str__` on `self.options` (which starts
empty for a freshly constructed renderer): `established` when the term
asks for it and TCP is among the protocols (the `PROTO_MAP['tcp']`
membership test cannot match a string list and is dropped), then `log`
when the term's logging flag is set. -/
def renderOptions (t : Term) (protocol : List String) : List String :=
  (if "tcp" ∈ protocol ∧ ("tcp-established" ∈ t.option ∨ "established" ∈ t.option)
   then ["established"] else []) ++
  (if t.logging then ["log"] else [])

/-- The two `Owner:` comment lines `Term.__str__` appends to the input
term's comment list (the `if self.term.owner` block appears twice in the
source), empty when the owner field is unset. -/
def ownerComments (t : Term) : List String :=
  if t.owner ≠ "" then ["Owner: " ++ t.owner, "Owner: " ++ t.owner] else []

/-- The `' remark '` rendering of a comment list: each comment is split on
newlines and each line truncated to 100 characters. -/
def commentRemarks (comments : List String) : List String :=
  comments.flatMap (fun c =>
    (pySplit '\n' c).map (fun l => " remark " ++ pyTake l 100))

/-- The remark header of `Term.__str__`: the initial `''` element of
`ret_str`, the name remark, and the comment remarks computed over the
comment list already extended with the owner lines. -/
def headerLines (t : Term) : List String :=
  [""] ++ [" remark " ++ t.name] ++ commentRemarks (t.comment ++ ownerComments t)

/-- The Cartesian rule-line expansion of `Term.__str__`: source address
outermost, then destination address, source port, destination port,
protocol, and icmp type innermost, each tuple rendered by
`Term._TermletToStr`. -/
def termRuleLines (excl : List Addr → List Addr → List Addr)
    (norm : List String → List String → Nat → List Int)
    (t : Term) (af : Nat) : List String :=
  (srcList excl t af).flatMap (fun saddr =>
    (dstList excl t af).flatMap (fun daddr =>
      (sportList t).flatMap (fun sport =>
        (dportList t).flatMap (fun dport =>
          (resolveProtocol t af).flatMap (fun proto =>
            (icmpList norm t af).flatMap (fun icmp_type =>
              termletToStr af (actionOf t) proto saddr daddr sport dport
                icmp_type (renderOptions t (resolveProtocol t af))))))))

/-- `Term.__str__` as a state-passing function: the returned term is the
(possibly mutated) input term — the source appends the owner comment to
`self.term.comment` in place — and the returned list is `ret_str`
(the output is its `'\n'.join`).  Early exits mirror the source: the
platform checks and the icmpv6-under-inet check return before the owner
mutation; the verbatim path inspects only the first verbatim entry
because the source's `return` sits inside the `for` loop; a declared
address list that resolves to empty suppresses the term after the
mutation has already happened. -/
def termStrCore (excl : List Addr → List Addr → List Addr)
    (norm : List String → List String → Nat → List Int)
    (t : Term) (af : Nat) : Term × List String :=
  if t.platform ≠ [] ∧ "cisco" ∉ t.platform then (t, [])
  else if "cisco" ∈ t.platform_exclude then (t, [])
  else if af = 4 ∧ "icmpv6" ∈ t.protocol then (t, [])
  else
    let t2 : Term := { t with comment := t.comment ++ ownerComments t }
    match t.verbatim with
    | v :: _ =>
      (t2, headerLines t ++ (if v.platform = "cisco" then [v.text] else []))
    | [] =>
      if t.source_address ≠ [] ∧
          resolveAddrs excl t.source_address t.source_address_exclude af = [] then
        (t2, [])
      else if t.destination_address ≠ [] ∧
          resolveAddrs excl t.destination_address t.destination_address_exclude af = [] then
        (t2, [])
      else
        (t2, headerLines t ++ termRuleLines excl norm t af)

/-- `str(Term)`: the joined output of `termStrCore`. -/
def termStr (excl : List Addr → List Addr → List Addr)
    (norm : List String → List String → Nat → List Int)
    (t : Term) (af : Nat) : String :=
  String.intercalate "\n" (termStrCore excl norm t af).2

/-- A constructed `TermStandard` object (the fields set by a successful
`TermStandard.__init__`). -/
structure StdTerm where
  term : Term
  filter_name : String
  logstring : String
  deriving DecidableEq

/-- `TermStandard.__init__`: the construction-time sanity checks of a
standard-ACL term, raising `StandardAclTermError` (modelled as `.error`
with the source's message) in the source's order, and otherwise producing
the object, with `logstring` set to `' log'` when the term's logging flag
is set (the accompanying `logging.warn` is a side effect only). -/
def termStandardInit (t : Term) (filter_name : String) : Except String StdTerm :=
  if t.protocol ≠ [] then
    .error "Standard ACLs cannot specify protocols"
  else if t.icmp_type ≠ [] then
    .error "ICMP Type specifications are not permissible in standard ACLs"
  else if t.source_address ≠ [] ∨ t.source_address_exclude ≠ [] ∨
      t.destination_address ≠ [] ∨ t.destination_address_exclude ≠ [] then
    .error "Standard ACLs cannot use source or destination addresses"
  else if t.option ≠ [] then
    .error "Standard ACLs prohibit use of options"
  else if t.source_port ≠ [] ∨ t.destination_port ≠ [] then
    .error "Standard ACLs prohibit use of port numbers"
  else if t.counter then
    .error "Counters are not implemented in standard ACLs"
  else
    .ok { term := t, filter_name := filter_name,
          logstring := if t.logging then " log" else "" }

/-- The IPv4 address list of `TermStandard.__str__`
(`type(x) != nacaddr.IPv6`). -/
def stdV4Addresses (r : StdTerm) : List Addr :=
  r.term.address.filter (fun a => a.version ≠ 6)

/-- The action lines of `TermStandard.__str__` (the lines other than the
remarks), for the numeric and the named filter-name branch; every line
ends with `logstring`. -/
def stdRuleLines (r : StdTerm) : List String :=
  let v4 := stdV4Addresses r
  let action := actionOf r.term
  if isDigitStr r.filter_name then
    if v4 ≠ [] then
      v4.map (fun addr =>
        if addr.prefixlen = 32 then
          "access-list " ++ r.filter_name ++ " " ++ action ++ " " ++
            addr.ip ++ r.logstring
        else
          "access-list " ++ r.filter_name ++ " " ++ action ++ " " ++
            addr.network ++ " " ++ addr.hostmask ++ r.logstring)
    else
      ["access-list " ++ r.filter_name ++ " " ++ action ++ " any" ++ r.logstring]
  else
    if v4 ≠ [] then
      v4.map (fun addr =>
        if addr.prefixlen = 32 then
          " " ++ action ++ " host " ++ addr.ip ++ r.logstring
        else
          " " ++ action ++ " " ++ addr.network ++ " " ++ addr.hostmask ++
            r.logstring)
    else
      [" " ++ action ++ " any" ++ r.logstring]

/-- The remark lines of `TermStandard.__str__`, parametrised by the
external `aclgenerator.WrapWords` (the wrapped comments are emitted only
when non-empty with a truthy first element). -/
def stdRemarkLines (wrapWords : List String → Nat → List String)
    (r : StdTerm) : List String :=
  let comments := wrapWords r.term.comment 70
  let commentLines :=
    if comments ≠ [] ∧ comments.headD "" ≠ "" then comments else []
  if isDigitStr r.filter_name then
    ["access-list " ++ r.filter_name ++ " remark " ++ r.term.name] ++
      commentLines.map (fun c => "access-list " ++ r.filter_name ++ " remark " ++ c)
  else
    [" remark " ++ r.term.name] ++ commentLines.map (fun c => " remark " ++ c)

/-- `TermStandard.__str__` as a line list: platform suppression, the same
first-verbatim-entry short circuit as the extended renderer (its
`ret_str` starts empty here), then remarks followed by the action lines. -/
def termStandardStrCore (wrapWords : List String → Nat → List String)
    (r : StdTerm) : List String :=
  if r.term.platform ≠ [] ∧ "cisco" ∉ r.term.platform then []
  else if "cisco" ∈ r.term.platform_exclude then []
  else
    match r.term.verbatim with
    | v :: _ => if v.platform = "cisco" then [v.text] else []
    | [] => stdRemarkLines wrapWords r ++ stdRuleLines r

/-- One address or port block of `ObjectGroup.__str__`, plus the updated
seen-key lists; processing of one term in the aggregator loop.  Address
identity is the `parent_token` of the first IPv4 address of the
direction's list; a port key is the `'low-high'` string.  (The source's
`if not port: continue` can never fire on a pair.) -/
def ogTermBlocks (seenAddrs seenPorts : List String) (t : Term) :
    List String × List String × List String :=
  let saddrs := getAddressOfVersion t.source_address 4
  let (out1, seenAddrs1) :=
    match saddrs with
    | [] => (([] : List String), seenAddrs)
    | a :: _ =>
      if a.parent_token ∈ seenAddrs then ([], seenAddrs)
      else
        (["object-group ip address " ++ a.parent_token] ++
           saddrs.map (fun x : Addr => " " ++ x.ip ++ " " ++ x.netmask) ++
           ["exit\n"],
         a.parent_token :: seenAddrs)
  let daddrs := getAddressOfVersion t.destination_address 4
  let (out2, seenAddrs2) :=
    match daddrs with
    | [] => (([] : List String), seenAddrs1)
    | a :: _ =>
      if a.parent_token ∈ seenAddrs1 then ([], seenAddrs1)
      else
        (["object-group ip address " ++ a.parent_token] ++
           daddrs.map (fun x : Addr => " " ++ x.ip ++ " " ++ x.netmask) ++
           ["exit\n"],
         a.parent_token :: seenAddrs1)
  let step := fun (acc : List String × List String) (port : Int × Int) =>
    let port_key := toString port.1 ++ "-" ++ toString port.2
    if port_key ∈ acc.2 then acc
    else
      (acc.1 ++
         ["object-group ip port " ++ port_key] ++
         [if port.1 ≠ port.2 then " range " ++ toString port.1 ++ " " ++ toString port.2
          else " eq " ++ toString port.1] ++
         ["exit\n"],
       port_key :: acc.2)
  let (out3, seenPorts1) :=
    (t.source_port ++ t.destination_port).foldl step ([], seenPorts)
  (out1 ++ out2 ++ out3, seenAddrs2, seenPorts1)

/-- The aggregator loop of `ObjectGroup.__str__` over the added terms,
threading the seen address-identity and port-key sets. -/
def ogLoop (seenAddrs seenPorts : List String) : List Term → List String
  | [] => []
  | t :: rest =>
    let (out, sa, sp) := ogTermBlocks seenAddrs seenPorts t
    out ++ ogLoop sa sp rest

/-- `ObjectGroup.__str__` as a line list (`ret_str` starts as `['\n']`). -/
def objectGroupLines (terms : List Term) : List String :=
  ["\n"] ++ ogLoop [] [] terms

/-- `ObjectGroupTerm._TermletToStr`.  `saddr`/`daddr` are address objects
(always truthy), so both become `'addrgroup %s'` of the object's `str()`;
a port pair becomes `'portgroup low-high'` and the `()` placeholder the
empty string. -/
def ogTermletToStr (action proto : String) (saddr : Addr)
    (sport : Option (Int × Int)) (daddr : Addr) (dport : Option (Int × Int)) :
    String :=
  let saddrS := "addrgroup " ++ saddr.strRep
  let daddrS := "addrgroup " ++ daddr.strRep
  let sportS :=
    match sport with
    | none => ""
    | some p => "portgroup " ++ toString p.1 ++ "-" ++ toString p.2
  let dportS :=
    match dport with
    | none => ""
    | some p => "portgroup " ++ toString p.1 ++ "-" ++ toString p.2
  " " ++ action ++ " " ++ proto ++ " " ++ saddrS ++ " " ++ sportS ++ " " ++
    daddrS ++ " " ++ dportS

/-- The synthetic `nacaddr.IPv4('0.0.0.0/0', token='ANY')` substituted by
`ObjectGroupTerm.__str__` for an undeclared address list. -/
def ogAnyAddr : Addr :=
  { version := 4, ip := "0.0.0.0", network := "0.0.0.0",
    netmask := "0.0.0.0", hostmask := "255.255.255.255",
    withPrefixlen := "0.0.0.0/0", strRep := "0.0.0.0/0",
    numhosts := 4294967296, prefixlen := 0, parent_token := "ANY" }

/-- `ObjectGroupTerm.__str__` as a line list (`ret_str` starts as
`['\n']`).  When the term declares a non-empty protocol list the source
never assigns the local `protocol` variable (the mapping statement is
commented out) and the emission loop raises `UnboundLocalError`; this
crash is modelled as `none`. -/
def ogTermStrCore (wrapWords : List String → Nat → List String) (t : Term) :
    Option (List String) :=
  if t.platform ≠ [] ∧ "cisco" ∉ t.platform then some []
  else if "cisco" ∈ t.platform_exclude then some []
  else
    let comments := wrapWords t.comment 70
    let commentLines :=
      if comments ≠ [] ∧ comments.headD "" ≠ "" then comments else []
    let header := ["\n", " remark " ++ t.name] ++
      commentLines.map (fun c => " remark " ++ c)
    match t.verbatim with
    | v :: _ => some (header ++ (if v.platform = "cisco" then [v.text] else []))
    | [] =>
      if t.protocol ≠ [] then none
      else
        let protocol := ["ip"]
        let source_address :=
          if t.source_address = [] then [ogAnyAddr] else t.source_address
        let destination_address :=
          if t.destination_address = [] then [ogAnyAddr] else t.destination_address
        let source_port : List (Option (Int × Int)) :=
          if t.source_port = [] then [none] else t.source_port.map some
        let destination_port : List (Option (Int × Int)) :=
          if t.destination_port = [] then [none] else t.destination_port.map some
        some (header ++
          source_address.flatMap (fun saddr =>
            destination_address.flatMap (fun daddr =>
              source_port.flatMap (fun sport =>
                destination_port.flatMap (fun dport =>
                  protocol.map (fun proto =>
                    ogTermletToStr (actionOf t) proto saddr sport daddr dport))))))

/-- The two error classes of the generator:
`UnsupportedCiscoAccessListError` and `StandardAclTermError`. -/
inductive CiscoErr where
  | unsupported (msg : String)
  | stdTerm (msg : String)
  deriving DecidableEq

/-- A term object appended to `new_terms` by `Cisco._TranslatePolicy`,
tagged by the renderer that was chosen for it.  `extended` records that
`Cisco._Term` discards its `af`/`proto_int` arguments and builds
`Term(term)` (address family 4); `inet6T` corresponds to
`Term(term, 6, ...)`. -/
inductive RTerm where
  | standard (r : StdTerm)
  | extended (t : Term)
  | objectGroup (t : Term) (filter_name : String)
  | inet6T (t : Term)
  deriving DecidableEq

/-- One tuple appended to `self.cisco_policies` (the header and the shared
object-group aggregator are elided; the aggregator's term list is
recoverable from the `objectGroup` entries of `terms`). -/
structure RenderedFilter where
  filter_name : String
  filter_list : List String
  terms : List RTerm
  deriving DecidableEq

/-- The renderer-object construction of the `render terms based on filter
type` dispatch in `Cisco._TranslatePolicy` (constructing a `TermStandard`
can raise; the final arm is unreachable, `filter_list` only ever holds
the four concrete types). -/
def buildRTerm (next_filter filter_name : String) (t2 : Term) :
    Except CiscoErr (Option RTerm) :=
  if next_filter = "standard" then
    match termStandardInit t2 filter_name with
    | .error e => .error (.stdTerm e)
    | .ok r => .ok (some (.standard r))
  else if next_filter = "extended" then .ok (some (.extended t2))
  else if next_filter = "object-group" then
    .ok (some (.objectGroup t2 filter_name))
  else if next_filter = "inet6" then .ok (some (.inet6T t2))
  else .ok none

/-- The per-term body of the `for term in terms` loop of
`Cisco._TranslatePolicy`: truncate the name via the external
`FixTermLength` (`ftl`), rewrite high ports via the external
`FixHighPorts` (`fhp`, returning `none` to drop the term), drop expired
terms (`expiration <= current_date`; the two-weeks message is a log side
effect only), then build the renderer object for `next_filter`
(constructing a `TermStandard` can raise).  `.ok none` means the term is
skipped. -/
def processTerm (ftl : String → String) (fhp : Term → String → Option Term)
    (currentDate : Nat) (filter_name next_filter : String) (t0 : Term) :
    Except CiscoErr (Option RTerm) :=
  let t1 : Term := { t0 with name := ftl t0.name }
  let af := if next_filter = "inet6" then "inet6" else "inet"
  match fhp t1 af with
  | none => .ok none
  | some t2 =>
    match t2.expiration with
    | some d =>
      if d ≤ currentDate then .ok none
      else buildRTerm next_filter filter_name t2
    | none => buildRTerm next_filter filter_name t2

/-- The whole `for term in terms` loop, accumulating `new_terms`. -/
def processTerms (ftl : String → String) (fhp : Term → String → Option Term)
    (currentDate : Nat) (filter_name next_filter : String) :
    List Term → Except CiscoErr (List RTerm)
  | [] => .ok []
  | t :: rest =>
    match processTerm ftl fhp currentDate filter_name next_filter t with
    | .error e => .error e
    | .ok r =>
      match processTerms ftl fhp currentDate filter_name next_filter rest with
      | .error e => .error e
      | .ok rs =>
        match r with
        | none => .ok rs
        | some x => .ok (x :: rs)

/-- `int(filter_name) in range(1, 100) + range(1300, 2000)`. -/
def numInStdRange (n : Nat) : Bool :=
  (1 ≤ n ∧ n ≤ 99) ∨ (1300 ≤ n ∧ n ≤ 1999)

/-- The `for next_filter in filter_list` loop of `Cisco._TranslatePolicy`:
the numeric-name/filter-type consistency checks, term processing, the
`ipv6-` renaming of the second pass of a mixed filter (the source rebinds
`filter_name` before appending, so the appended tuple and all later
iterations see the new name), and one `cisco_policies` append per
`next_filter`. -/
def translateLoop (ftl : String → String) (fhp : Term → String → Option Term)
    (currentDate : Nat) (filter_type : String) (terms : List Term) :
    String → List String → Except CiscoErr (List RenderedFilter)
  | _, [] => .ok []
  | filter_name, next_filter :: rest =>
    if next_filter = "extended" ∧ isDigitStr filter_name ∧
        numInStdRange (strToNat filter_name) then
      .error (.unsupported
        "Access lists between 1-99 and 1300-1999 are reserved for standard ACLs")
    else if next_filter = "standard" ∧ isDigitStr filter_name ∧
        ¬ numInStdRange (strToNat filter_name) then
      .error (.unsupported
        "Standard access lists must be numeric in the range of 1-99 or 1300-1999.")
    else
      match processTerms ftl fhp currentDate filter_name next_filter terms with
      | .error e => .error e
      | .ok new_terms =>
        let fn2 :=
          if filter_type = "mixed" ∧ next_filter = "inet6" then
            "ipv6-" ++ filter_name
          else filter_name
        match translateLoop ftl fhp currentDate filter_type terms fn2 rest with
        | .error e => .error e
        | .ok rs =>
          .ok ({ filter_name := fn2, filter_list := [next_filter],
                 terms := new_terms } :: rs)

/-- `good_filters` from `Cisco._TranslatePolicy`. -/
def goodFilters : List String :=
  ["extended", "standard", "object-group", "inet6", "mixed"]

/-- `Cisco._TranslatePolicy` for one `(header, terms)` pair targeting this
platform: determine the filter type from the platform filter options
(second element, default `extended`), reject unknown types, fan a mixed
filter out into an `extended` and an `inet6` pass, and run the
per-`next_filter` loop. -/
def translateFilter (ftl : String → String) (fhp : Term → String → Option Term)
    (currentDate : Nat) (filter_options : List String) (filter_name : String)
    (terms : List Term) : Except CiscoErr (List RenderedFilter) :=
  let filter_type :=
    match filter_options with
    | _ :: ft :: _ => ft
    | _ => "extended"
  if filter_type ∉ goodFilters then
    .error (.unsupported ("access list type " ++ filter_type ++
      " not supported by cisco"))
  else
    let filter_list :=
      if filter_type = "mixed" then ["extended", "inet6"] else [filter_type]
    translateLoop ftl fhp currentDate filter_type terms filter_name filter_list

/-! Concrete instantiations of the external collaborators, used for
evaluating the renderers on closed inputs (none of the closed inputs
below exercises address exclusion, icmp normalization or comment
wrapping, so trivial instances are faithful there). -/

/-- A trivial `ExcludeAddrs` instance for closed inputs with no excludes. -/
def exclId : List Addr → List Addr → List Addr := fun a _ => a

/-- A trivial `NormalizeIcmpTypes` instance for closed inputs with no
declared icmp types. -/
def normEmpty : List String → List String → Nat → List Int := fun _ _ _ => []

/-- A trivial `WrapWords` instance for closed inputs with no comments. -/
def wrapId : List String → Nat → List String := fun l _ => l

/-- A term declaring only a logging flag (used to instantiate C2). -/
def logOnlyTerm : Term := { name := "std-log", action := ["accept"], logging := true }

/-- The `allow-web` term of the specification's end-to-end example:
action accept, protocol tcp, destination port (80,80), nothing else. -/
def allowWebTerm : Term :=
  { name := "allow-web", action := ["accept"], protocol := ["tcp"],
    destination_port := [(80, 80)] }

/-- The IPv4 address `10.1.1.0/24` declared under the policy token `FOO`
(used to instantiate C7). -/
def addrFoo : Addr :=
  { version := 4, ip := "10.1.1.0", network := "10.1.1.0",
    netmask := "255.255.255.0", hostmask := "0.0.0.255",
    withPrefixlen := "10.1.1.0/24", strRep := "10.1.1.0/24",
    numhosts := 256, prefixlen := 24, parent_token := "FOO" }

/-- First object-group term referencing the `FOO` source list. -/
def ogT1 : Term :=
  { name := "og1", action := ["accept"], source_address := [addrFoo] }

/-- Second object-group term referencing the same `FOO` source list. -/
def ogT2 : Term :=
  { name := "og2", action := ["accept"], source_address := [addrFoo] }

/-- A term whose cisco-tagged verbatim entry sits in second position
(used to refute C8 as stated). -/
def vTerm : Term :=
  { name := "vt", action := ["accept"],
    verbatim := [{ platform := "juniper", text := "set foo" },
                 { platform := "cisco", text := "hw-accel on" }] }

/-- A term carrying a first-position cisco-tagged verbatim entry (used as
the witness input for C8's amended theorem). -/
def cVerbTerm : Term :=
  { name := "cv", action := ["accept"],
    verbatim := [{ platform := "cisco", text := "hw on" }] }

/-- A term with an owner and an empty comment list (used to refute C9 as
stated). -/
def ownerTerm : Term := { name := "t9", action := ["accept"], owner := "bob" }

/-- A term with two protocols and a two-value contiguous destination port
range (which splits into two singleton ports), used to instantiate C1:
1 × 1 × 1 × 2 × 2 × 1 = 4 rule lines. -/
def c1Term : Term :=
  { name := "w1", action := ["accept"], protocol := ["tcp", "udp"],
    destination_port := [(1, 2)] }

/-- The C10 witness input: owner `bob`, no pre-existing comments. -/
def ownerTerm10 : Term :=
  { name := "t10", action := ["accept"], owner := "bob" }

/-- Helper: the length of a `flatMap` whose body has constant length. -/
theorem length_flatMap_const {α β : Type} (l : List α) (f : α → List β)
    (n : Nat) (h : ∀ a, (f a).length = n) :
    (l.flatMap f).length = l.length * n := by
  induction l with
  | nil => simp
  | cons a as ih =>
    rw [List.flatMap_cons, List.length_append, h, ih, List.length_cons,
      Nat.succ_mul, Nat.add_comm]

/-- Helper: `Term._TermletToStr` always emits exactly one line. -/
theorem termletToStr_length (af : Nat) (action proto : String)
    (saddr daddr : CAddr) (sport dport : Option (Int × Int))
    (icmp_type : Option Int) (option : List String) :
    (termletToStr af action proto saddr daddr sport dport icmp_type option).length = 1 := by
  simp [termletToStr]

/-- Helper: `_FixConsecutivePorts` on a `cons`. -/
theorem fix_cons (p : Int × Int) (l : List (Int × Int)) :
    fixConsecutivePorts (p :: l) = splitPair p ++ fixConsecutivePorts l := by
  simp [fixConsecutivePorts]

/-- Helper: `_FixConsecutivePorts` distributes over append. -/
theorem fix_append (l1 l2 : List (Int × Int)) :
    fixConsecutivePorts (l1 ++ l2) =
      fixConsecutivePorts l1 ++ fixConsecutivePorts l2 := by
  simp [fixConsecutivePorts]

/-- Helper: the split of a pair is a fixed point of the split. -/
theorem fix_splitPair (p : Int × Int) :
    fixConsecutivePorts (splitPair p) = splitPair p := by
  obtain ⟨lo, hi⟩ := p
  by_cases h : lo = hi - 1
  · have hs : splitPair (lo, hi) = [(lo, lo), (hi, hi)] := by
      simp only [splitPair]; rw [if_pos h]
    have h1 : splitPair (lo, lo) = [(lo, lo)] := by
      simp only [splitPair]; rw [if_neg (by omega)]
    have h2 : splitPair (hi, hi) = [(hi, hi)] := by
      simp only [splitPair]; rw [if_neg (by omega)]
    rw [hs, show ([(lo, lo), (hi, hi)] : List (Int × Int)) =
      [(lo, lo)] ++ [(hi, hi)] from rfl, fix_append]
    rw [show fixConsecutivePorts [(lo, lo)] = splitPair (lo, lo) ++ [] from rfl,
      show fixConsecutivePorts [(hi, hi)] = splitPair (hi, hi) ++ [] from rfl,
      h1, h2]
    rfl
  · have hs : splitPair (lo, hi) = [(lo, hi)] := by
      simp only [splitPair]; rw [if_neg h]
    rw [hs, show fixConsecutivePorts [(lo, hi)] = splitPair (lo, hi) ++ [] from rfl,
      hs]
    rfl

/-- C4: The consecutive-port-split transform maps every input pair
(lo, hi) with hi - lo = 1 to exactly the two pairs [(lo,lo),(hi,hi)] in
place, leaves every other pair unchanged preserving list order, and is
idempotent: applying it to its own output returns that output
unchanged. -/
theorem c4_fix_consecutive_ports :
    (∀ (l1 l2 : List (Int × Int)) (lo hi : Int),
      fixConsecutivePorts (l1 ++ (lo, hi) :: l2) =
        fixConsecutivePorts l1 ++
          (if hi - lo = 1 then [(lo, lo), (hi, hi)] else [(lo, hi)]) ++
          fixConsecutivePorts l2) ∧
    (∀ l : List (Int × Int),
      fixConsecutivePorts (fixConsecutivePorts l) = fixConsecutivePorts l) := by
  constructor
  · intro l1 l2 lo hi
    rw [fix_append, fix_cons]
    by_cases hc : hi - lo = 1
    · rw [if_pos hc, show splitPair (lo, hi) = [(lo, lo), (hi, hi)] from by
        simp only [splitPair]; rw [if_pos (by omega)]]
      simp [List.append_assoc]
    · rw [if_neg hc, show splitPair (lo, hi) = [(lo, hi)] from by
        simp only [splitPair]; rw [if_neg (by omega)]]
      simp [List.append_assoc]
  · intro l
    induction l with
    | nil => rfl
    | cons p rest ih =>
      rw [fix_cons, fix_append, ih, fix_splitPair]

/-- Helper for C2: every action line of `TermStandard.__str__` carries the
`logstring` suffix. -/
theorem stdRuleLines_suffix (r : StdTerm) :
    ∀ l ∈ stdRuleLines r, ∃ p, l = p ++ r.logstring := by
  intro l hl
  simp only [stdRuleLines] at hl
  split_ifs at hl with h1 h2 h3
  · rw [List.mem_map] at hl
    obtain ⟨a, _, ha⟩ := hl
    split_ifs at ha <;> exact ⟨_, ha.symm⟩
  · rw [List.mem_singleton] at hl
    exact ⟨_, hl⟩
  · rw [List.mem_map] at hl
    obtain ⟨a, _, ha⟩ := hl
    split_ifs at ha <;> exact ⟨_, ha.symm⟩
  · rw [List.mem_singleton] at hl
    exact ⟨_, hl⟩

/-- C2: constructing a standard-ACL term fails (StandardAclTermError) iff
the term declares a protocol, an icmp type, a source/destination address
or exclude list, an option, a source/destination port, or a counter; a
term with only a logging flag is accepted with logstring ' log', and
every emitted rule line carries that ' log' suffix. -/
theorem c2_standard_acl_validation :
    (∀ (t : Term) (fn : String),
      (∃ e, termStandardInit t fn = .error e) ↔
        (t.protocol ≠ [] ∨ t.icmp_type ≠ [] ∨ t.source_address ≠ [] ∨
         t.source_address_exclude ≠ [] ∨ t.destination_address ≠ [] ∨
         t.destination_address_exclude ≠ [] ∨ t.option ≠ [] ∨
         t.source_port ≠ [] ∨ t.destination_port ≠ [] ∨ t.counter = true)) ∧
    (∀ (t : Term) (fn : String) (r : StdTerm),
      t.logging = true → termStandardInit t fn = .ok r →
        r.logstring = " log" ∧ ∀ l ∈ stdRuleLines r, ∃ p, l = p ++ " log") := by
  constructor
  · intro t fn
    unfold termStandardInit
    split_ifs with h1 h2 h3 h4 h5 h6 <;> simp_all <;> tauto
  · intro t fn r hlog hok
    unfold termStandardInit at hok
    split_ifs at hok
    have hr : r.logstring = " log" := by
      cases hok
      simp [hlog]
    refine ⟨hr, ?_⟩
    intro l hl
    have := stdRuleLines_suffix r l hl
    rwa [hr] at this

/-- Witness for C2 at a concrete input: the logging-only term is accepted
with logstring ' log'. -/
theorem c2_standard_acl_validation_witness :
    termStandardInit logOnlyTerm "10" =
      .ok { term := logOnlyTerm, filter_name := "10", logstring := " log" } ∧
    (logOnlyTerm.logging = true) ∧
    ({ term := logOnlyTerm, filter_name := "10", logstring := " log" } : StdTerm).logstring = " log" :=
  ⟨by rfl, rfl,
    (c2_standard_acl_validation.2 logOnlyTerm "10"
      { term := logOnlyTerm, filter_name := "10", logstring := " log" }
      rfl (by rfl)).1⟩

/-- C3: during policy translation, a numeric filter name whose value lies
in [1,99] or [1300,1999] requested as `extended` raises
UnsupportedCiscoAccessListError, a numeric filter name outside those
ranges requested as `standard` raises it too, and in particular numeric
name 150 as `standard` and numeric name 50 as `extended` both raise. -/
theorem c3_numeric_filter_ranges :
    (∀ (ftl : String → String) (fhp : Term → String → Option Term)
        (cd : Nat) (p : String) (rest : List String) (name : String)
        (terms : List Term),
      isDigitStr name = true → numInStdRange (strToNat name) = true →
      ∃ m, translateFilter ftl fhp cd (p :: "extended" :: rest) name terms =
        .error (.unsupported m)) ∧
    (∀ (ftl : String → String) (fhp : Term → String → Option Term)
        (cd : Nat) (p : String) (rest : List String) (name : String)
        (terms : List Term),
      isDigitStr name = true → numInStdRange (strToNat name) = false →
      ∃ m, translateFilter ftl fhp cd (p :: "standard" :: rest) name terms =
        .error (.unsupported m)) ∧
    (∃ m, translateFilter id (fun t _ => some t) 0 ["cisco", "standard"]
      "150" [] = .error (.unsupported m)) ∧
    (∃ m, translateFilter id (fun t _ => some t) 0 ["cisco", "extended"]
      "50" [] = .error (.unsupported m)) := by
  refine ⟨?_, ?_, ?_, ?_⟩
  · intro ftl fhp cd p rest name terms h1 h2
    refine ⟨"Access lists between 1-99 and 1300-1999 are reserved for standard ACLs", ?_⟩
    simp [translateFilter, goodFilters, translateLoop, h1, h2]
  · intro ftl fhp cd p rest name terms h1 h2
    refine ⟨"Standard access lists must be numeric in the range of 1-99 or 1300-1999.", ?_⟩
    simp [translateFilter, goodFilters, translateLoop, h1, h2]
  · exact ⟨"Standard access lists must be numeric in the range of 1-99 or 1300-1999.", by rfl⟩
  · exact ⟨"Access lists between 1-99 and 1300-1999 are reserved for standard ACLs", by rfl⟩

/-- Witness for C3 at a concrete input: name 1305 is numeric and inside
the reserved ranges, so an `extended` request fails. -/
theorem c3_numeric_filter_ranges_witness :
    (isDigitStr "1305" = true ∧ numInStdRange (strToNat "1305") = true) ∧
    ∃ m, translateFilter id (fun t _ => some t) 7 ["cisco", "extended"]
      "1305" [] = .error (.unsupported m) :=
  ⟨⟨by decide, by decide⟩,
    c3_numeric_filter_ranges.1 id (fun t _ => some t) 7 "cisco" [] "1305" []
      (by decide) (by decide)⟩

/-- Helper for C5: a term processed for a `next_filter` other than
`standard` never raises (only `TermStandard` construction can). -/
theorem processTerm_ok_of_ne_standard (ftl : String → String)
    (fhp : Term → String → Option Term) (cd : Nat) (fn nf : String)
    (h : nf ≠ "standard") (t : Term) :
    ∃ r, processTerm ftl fhp cd fn nf t = .ok r := by
  have hbuild : ∀ t2 : Term, ∃ r, buildRTerm nf fn t2 = .ok r := by
    intro t2
    unfold buildRTerm
    rw [if_neg h]
    split_ifs <;> exact ⟨_, rfl⟩
  simp only [processTerm]
  cases hf : fhp { t with name := ftl t.name }
      (if nf = "inet6" then "inet6" else "inet") with
  | none => exact ⟨none, by simp⟩
  | some t2 =>
    cases he : t2.expiration with
    | none =>
      obtain ⟨r, hr⟩ := hbuild t2
      exact ⟨r, by simp [he, hr]⟩
    | some d =>
      by_cases hd : d ≤ cd
      · exact ⟨none, by simp [he, hd]⟩
      · obtain ⟨r, hr⟩ := hbuild t2
        exact ⟨r, by simp [he, hd, hr]⟩

/-- Helper for C5: processing a whole term list for a non-`standard`
`next_filter` never raises. -/
theorem processTerms_ok_of_ne_standard (ftl : String → String)
    (fhp : Term → String → Option Term) (cd : Nat) (fn nf : String)
    (h : nf ≠ "standard") (terms : List Term) :
    ∃ l, processTerms ftl fhp cd fn nf terms = .ok l := by
  induction terms with
  | nil => exact ⟨[], rfl⟩
  | cons t rest ih =>
    obtain ⟨r, hr⟩ := processTerm_ok_of_ne_standard ftl fhp cd fn nf h t
    obtain ⟨l, hl⟩ := ih
    cases r with
    | none => exact ⟨l, by simp [processTerms, hr, hl]⟩
    | some x => exact ⟨x :: l, by simp [processTerms, hr, hl]⟩

/-- Counterexample to C5 as stated: a `mixed` filter yields TWO rendered
filters, tagged `[extended]` and `[inet6]` respectively — not one
rendered filter tagged `[extended, inet6]`. -/
theorem c5_mixed_counterexample :
    translateFilter id (fun t _ => some t) 0 ["cisco", "mixed"] "edge" [] =
      .ok [{ filter_name := "edge", filter_list := ["extended"], terms := [] },
           { filter_name := "ipv6-edge", filter_list := ["inet6"], terms := [] }] := by
  rfl

/-- C5 (amended): a `mixed` filter whose filter name is NOT a numeric
string with value in [1,99] or [1300,1999] yields exactly two rendered
filters, appended in order: the first tagged `[extended]` with the
header's filter name, the second tagged `[inet6]` with that name
prefixed `ipv6-`; a `mixed` filter whose numeric name lies in those
reserved ranges instead raises UnsupportedCiscoAccessListError on its
extended pass. -/
theorem c5_mixed_two_filters :
    (∀ (ftl : String → String) (fhp : Term → String → Option Term)
        (cd : Nat) (p : String) (rest : List String) (name : String)
        (terms : List Term),
      ¬ (isDigitStr name = true ∧ numInStdRange (strToNat name) = true) →
      ∃ ts1 ts2, translateFilter ftl fhp cd (p :: "mixed" :: rest) name terms =
        .ok [{ filter_name := name, filter_list := ["extended"], terms := ts1 },
             { filter_name := "ipv6-" ++ name, filter_list := ["inet6"],
               terms := ts2 }]) ∧
    (∀ (ftl : String → String) (fhp : Term → String → Option Term)
        (cd : Nat) (p : String) (rest : List String) (name : String)
        (terms : List Term),
      isDigitStr name = true → numInStdRange (strToNat name) = true →
      ∃ m, translateFilter ftl fhp cd (p :: "mixed" :: rest) name terms =
        .error (.unsupported m)) := by
  constructor
  · intro ftl fhp cd p rest name terms h
    obtain ⟨l1, hl1⟩ := processTerms_ok_of_ne_standard ftl fhp cd name "extended"
      (by decide) terms
    obtain ⟨l2, hl2⟩ := processTerms_ok_of_ne_standard ftl fhp cd name "inet6"
      (by decide) terms
    refine ⟨l1, l2, ?_⟩
    by_cases hdig : isDigitStr name = true
    · have hnr : numInStdRange (strToNat name) = false := by
        cases hb : numInStdRange (strToNat name)
        · rfl
        · exact absurd ⟨hdig, hb⟩ h
      simp [translateFilter, goodFilters, translateLoop, hdig, hnr, hl1, hl2]
    · have hdig2 : isDigitStr name = false := by
        cases hb : isDigitStr name
        · rfl
        · exact absurd hb hdig
      simp [translateFilter, goodFilters, translateLoop, hdig2, hl1, hl2]
  · intro ftl fhp cd p rest name terms h1 h2
    refine ⟨"Access lists between 1-99 and 1300-1999 are reserved for standard ACLs", ?_⟩
    simp [translateFilter, goodFilters, translateLoop, h1, h2]

/-- Witness for C5's amended theorem at concrete inputs: the non-numeric
name `edge` and the numeric out-of-range name `150` both fan out into
the two rendered filters; the reserved numeric name `50` raises. -/
theorem c5_mixed_two_filters_witness :
    (¬ (isDigitStr "edge" = true ∧ numInStdRange (strToNat "edge") = true) ∧
     ∃ ts1 ts2, translateFilter id (fun t _ => some t) 0 ["cisco", "mixed"]
        "edge" [] =
      .ok [{ filter_name := "edge", filter_list := ["extended"], terms := ts1 },
           { filter_name := "ipv6-edge", filter_list := ["inet6"],
             terms := ts2 }]) ∧
    (¬ (isDigitStr "150" = true ∧ numInStdRange (strToNat "150") = true) ∧
     ∃ ts1 ts2, translateFilter id (fun t _ => some t) 0 ["cisco", "mixed"]
        "150" [] =
      .ok [{ filter_name := "150", filter_list := ["extended"], terms := ts1 },
           { filter_name := "ipv6-150", filter_list := ["inet6"],
             terms := ts2 }]) ∧
    (isDigitStr "50" = true ∧ numInStdRange (strToNat "50") = true ∧
     ∃ m, translateFilter id (fun t _ => some t) 0 ["cisco", "mixed"]
        "50" [] = .error (.unsupported m)) :=
  ⟨⟨by decide,
      c5_mixed_two_filters.1 id (fun t _ => some t) 0 "cisco" [] "edge" []
        (by decide)⟩,
   ⟨by decide,
      c5_mixed_two_filters.1 id (fun t _ => some t) 0 "cisco" [] "150" []
        (by decide)⟩,
   by decide, by decide,
   c5_mixed_two_filters.2 id (fun t _ => some t) 0 "cisco" [] "50" []
     (by decide) (by decide)⟩

/-- C6: the `allow-web` term rendered on the extended/IPv4 path produces,
besides its remark line, exactly one rule line which — after collapsing
whitespace runs and trimming — equals `permit tcp any any eq www`, with
port 80 resolved through the well-known TCP port table to `www`. -/
theorem c6_allow_web_render :
    (termStrCore exclId normEmpty allowWebTerm 4).2 =
      ["", " remark allow-web", " permit tcp any any eq www"] ∧
    termRuleLines exclId normEmpty allowWebTerm 4 =
      [" permit tcp any any eq www"] ∧
    pyStrip " permit tcp any any eq www" = "permit tcp any any eq www" ∧
    termPortToProtocol 4 (some 80) "tcp" = "www" := by
  refine ⟨by rfl, by rfl, by rfl, by rfl⟩

/-- C7 evaluation: two terms sharing the source-address declaration
identity `FOO` yield exactly one `object-group ip address FOO` block in
the aggregator's output — but, contradicting the claim (and the class's
own docstring, which shows rule lines referencing group names), both
terms' rule lines read `addrgroup 10.1.1.0/24` (the `str()` of the
address object), not `addrgroup FOO`: the character run `addrgroup FOO`
occurs nowhere in the rule line. -/
theorem c7_object_group_eval :
    (objectGroupLines [ogT1, ogT2]).count "object-group ip address FOO" = 1 ∧
    ogTermStrCore wrapId ogT1 =
      some ["\n", " remark og1",
            " permit ip addrgroup 10.1.1.0/24  addrgroup 0.0.0.0/0 "] ∧
    ogTermStrCore wrapId ogT2 =
      some ["\n", " remark og2",
            " permit ip addrgroup 10.1.1.0/24  addrgroup 0.0.0.0/0 "] ∧
    occursIn ("addrgroup FOO".data)
      (" permit ip addrgroup 10.1.1.0/24  addrgroup 0.0.0.0/0 ".data) =
      false := by
  refine ⟨by rfl, by rfl, by rfl, by rfl⟩

/-- Counterexample to C8 as stated: with the cisco-tagged verbatim entry
in second position, the renderer emits only the remark header — the
verbatim text `hw-accel on` is dropped, because the source's `return`
sits inside the `for` loop and fires after the first entry. -/
theorem c8_verbatim_position_counterexample :
    (termStrCore exclId normEmpty vTerm 4).2 = ["", " remark vt"] ∧
    "hw-accel on" ∉ (termStrCore exclId normEmpty vTerm 4).2 := by
  refine ⟨by rfl, by decide⟩

/-- C8 (amended): for a term with a non-empty verbatim list the renderer
emits only the remark header lines, plus the first entry's literal text
when (and only when) that FIRST entry is cisco-tagged; entries in later
positions are never examined, and no further processing happens either
way. -/
theorem c8_verbatim_first_entry (excl : List Addr → List Addr → List Addr)
    (norm : List String → List String → Nat → List Int)
    (t : Term) (af : Nat) (v : VerbatimEntry) (vs : List VerbatimEntry)
    (hp : t.platform = [] ∨ "cisco" ∈ t.platform)
    (hpx : "cisco" ∉ t.platform_exclude)
    (hicmp : ¬ (af = 4 ∧ "icmpv6" ∈ t.protocol))
    (hv : t.verbatim = v :: vs) :
    (termStrCore excl norm t af).2 =
      headerLines t ++ (if v.platform = "cisco" then [v.text] else []) := by
  have h1 : ¬ (t.platform ≠ [] ∧ "cisco" ∉ t.platform) := by tauto
  simp only [termStrCore, h1, hpx, hicmp, hv, if_false]

/-- Witness for C8's amended theorem at a concrete input. -/
theorem c8_verbatim_first_entry_witness :
    (termStrCore exclId normEmpty cVerbTerm 4).2 =
      headerLines cVerbTerm ++
        (if ({ platform := "cisco", text := "hw on" } : VerbatimEntry).platform
            = "cisco" then ["hw on"] else []) :=
  c8_verbatim_first_entry exclId normEmpty cVerbTerm 4
    { platform := "cisco", text := "hw on" } [] (Or.inl rfl) (by decide)
    (by decide) rfl

/-- Counterexample to C9 as stated: rendering `ownerTerm` returns a
mutated term — its comment list has grown by two `Owner:` entries — so
compilation does mutate the input policy. -/
theorem c9_no_mutation_counterexample :
    (termStrCore exclId normEmpty ownerTerm 4).1 ≠ ownerTerm ∧
    ((termStrCore exclId normEmpty ownerTerm 4).1).comment =
      ["Owner: bob", "Owner: bob"] ∧
    ownerTerm.comment = [] := by
  refine ⟨by decide, by rfl, by rfl⟩

/-- C9 (amended): whenever the extended/inet6 renderer gets past the
platform and family checks, it returns the input term with the owner
remark appended TWICE to its comment list (and unchanged otherwise);
all other fields of the term are preserved. -/
theorem c9_render_comment_mutation (excl : List Addr → List Addr → List Addr)
    (norm : List String → List String → Nat → List Int)
    (t : Term) (af : Nat)
    (hp : t.platform = [] ∨ "cisco" ∈ t.platform)
    (hpx : "cisco" ∉ t.platform_exclude)
    (hicmp : ¬ (af = 4 ∧ "icmpv6" ∈ t.protocol)) :
    (termStrCore excl norm t af).1 =
      { t with comment := t.comment ++ ownerComments t } := by
  have h1 : ¬ (t.platform ≠ [] ∧ "cisco" ∉ t.platform) := by tauto
  simp only [termStrCore, h1, hpx, hicmp, if_false]
  cases t.verbatim with
  | cons v vs => simp
  | nil =>
    simp only
    split_ifs <;> rfl

/-- Witness for C9's amended theorem at a concrete input. -/
theorem c9_render_comment_mutation_witness :
    (termStrCore exclId normEmpty ownerTerm 4).1 =
      { ownerTerm with
        comment := ownerTerm.comment ++ ownerComments ownerTerm } :=
  c9_render_comment_mutation exclId normEmpty ownerTerm 4 (Or.inl rfl)
    (by decide) (by decide)

/-- Helper: on the normal (non-suppressed, non-verbatim) path,
`Term.__str__` mutates the comment list and emits the remark header
followed by the Cartesian rule expansion. -/
theorem termStrCore_normal (excl : List Addr → List Addr → List Addr)
    (norm : List String → List String → Nat → List Int)
    (t : Term) (af : Nat)
    (hp : t.platform = [] ∨ "cisco" ∈ t.platform)
    (hpx : "cisco" ∉ t.platform_exclude)
    (hicmp : ¬ (af = 4 ∧ "icmpv6" ∈ t.protocol))
    (hv : t.verbatim = [])
    (hs : t.source_address = [] ∨
      resolveAddrs excl t.source_address t.source_address_exclude af ≠ [])
    (hd : t.destination_address = [] ∨
      resolveAddrs excl t.destination_address t.destination_address_exclude af ≠ []) :
    termStrCore excl norm t af =
      ({ t with comment := t.comment ++ ownerComments t },
       headerLines t ++ termRuleLines excl norm t af) := by
  have h1 : ¬ (t.platform ≠ [] ∧ "cisco" ∉ t.platform) := by tauto
  have h2 : ¬ (t.source_address ≠ [] ∧
      resolveAddrs excl t.source_address t.source_address_exclude af = []) := by
    tauto
  have h3 : ¬ (t.destination_address ≠ [] ∧
      resolveAddrs excl t.destination_address t.destination_address_exclude af = []) := by
    tauto
  simp only [termStrCore, h1, hpx, hicmp, hv, h2, h3, if_false]

/-- C1: on the normal extended/inet6 path the output is the remark header
followed by the rule lines; the number of rule lines equals
|src_addrs| × |dst_addrs| × |src_ports| × |dst_ports| × |protocols| ×
|icmp_types| (iterated with source address outermost and icmp type
innermost, per the definition of `termRuleLines`), where each undeclared
field contributes exactly one placeholder — addresses `'any'`, ports the
empty tuple, icmp types the empty string, an empty protocol list the
single family default — and the port lists are counted after the
consecutive-port-split transform. -/
theorem c1_extended_line_count (excl : List Addr → List Addr → List Addr)
    (norm : List String → List String → Nat → List Int)
    (t : Term) (af : Nat)
    (hp : t.platform = [] ∨ "cisco" ∈ t.platform)
    (hpx : "cisco" ∉ t.platform_exclude)
    (hicmp : ¬ (af = 4 ∧ "icmpv6" ∈ t.protocol))
    (hv : t.verbatim = [])
    (hs : t.source_address = [] ∨
      resolveAddrs excl t.source_address t.source_address_exclude af ≠ [])
    (hd : t.destination_address = [] ∨
      resolveAddrs excl t.destination_address t.destination_address_exclude af ≠ []) :
    (termStrCore excl norm t af).2 =
      headerLines t ++ termRuleLines excl norm t af ∧
    (termRuleLines excl norm t af).length =
      (srcList excl t af).length * ((dstList excl t af).length *
        ((sportList t).length * ((dportList t).length *
          ((resolveProtocol t af).length * (icmpList norm t af).length)))) ∧
    (t.source_address = [] → srcList excl t af = [CAddr.str "any"]) ∧
    (t.destination_address = [] → dstList excl t af = [CAddr.str "any"]) ∧
    (t.source_port = [] → sportList t = [none]) ∧
    (t.source_port ≠ [] →
      sportList t = (fixConsecutivePorts t.source_port).map some) ∧
    (t.destination_port = [] → dportList t = [none]) ∧
    (t.destination_port ≠ [] →
      dportList t = (fixConsecutivePorts t.destination_port).map some) ∧
    (t.icmp_type = [] → icmpList norm t af = [none]) ∧
    (t.protocol = [] →
      resolveProtocol t af = (if af = 6 then ["ipv6"] else ["ip"])) := by
  refine ⟨?_, ?_, ?_, ?_, ?_, ?_, ?_, ?_, ?_, ?_⟩
  · rw [termStrCore_normal excl norm t af hp hpx hicmp hv hs hd]
  · show (termRuleLines excl norm t af).length = _
    unfold termRuleLines
    apply length_flatMap_const
    intro saddr
    apply length_flatMap_const
    intro daddr
    apply length_flatMap_const
    intro sport
    apply length_flatMap_const
    intro dport
    apply length_flatMap_const
    intro proto
    rw [length_flatMap_const (icmpList norm t af) _ 1
      (fun icmp_type => termletToStr_length af (actionOf t) proto saddr daddr
        sport dport icmp_type (renderOptions t (resolveProtocol t af))),
      Nat.mul_one]
  · intro h; simp [srcList, h]
  · intro h; simp [dstList, h]
  · intro h; simp [sportList, h]
  · intro h; simp [sportList, h]
  · intro h; simp [dportList, h]
  · intro h; simp [dportList, h]
  · intro h; simp [icmpList, h]
  · intro h; simp [resolveProtocol, h]

/-- Witness for C1 at a concrete input. -/
theorem c1_extended_line_count_witness :
    ((termStrCore exclId normEmpty c1Term 4).2 =
      headerLines c1Term ++ termRuleLines exclId normEmpty c1Term 4 ∧
     (termRuleLines exclId normEmpty c1Term 4).length =
      (srcList exclId c1Term 4).length * ((dstList exclId c1Term 4).length *
        ((sportList c1Term).length * ((dportList c1Term).length *
          ((resolveProtocol c1Term 4).length *
            (icmpList normEmpty c1Term 4).length))))) ∧
    (termRuleLines exclId normEmpty c1Term 4).length = 4 := by
  have h := c1_extended_line_count exclId normEmpty c1Term 4 (Or.inl rfl)
    (by decide) (by decide) rfl (Or.inl rfl) (Or.inl rfl)
  exact ⟨⟨h.1, h.2.1⟩, by rfl⟩

/-- Helper: `commentRemarks` distributes over list append. -/
theorem commentRemarks_append (a b : List String) :
    commentRemarks (a ++ b) = commentRemarks a ++ commentRemarks b := by
  simp [commentRemarks]

/-- Helper: a remark line is never the empty string. -/
theorem remark_append_ne_empty (s : String) : " remark " ++ s ≠ "" := by
  intro h
  have h2 := congrArg String.length h
  rw [String.length_append] at h2
  have h3 : (" remark " : String).length = 8 := by rfl
  have h4 : ("" : String).length = 0 := by rfl
  omega

/-- C10: for a term with a non-empty owner rendered on the normal
extended/inet6 path, the output contains the line
`' remark Owner: <owner>'` exactly twice — because the renderer appends
the owner comment to the term's comment list two times — provided the
owner text is newline-free and short enough to survive the 100-character
remark truncation, and that line does not also arise from the term's own
name, pre-existing comments, or rule lines. -/
theorem c10_owner_remark_twice (excl : List Addr → List Addr → List Addr)
    (norm : List String → List String → Nat → List Int)
    (t : Term) (af : Nat)
    (hp : t.platform = [] ∨ "cisco" ∈ t.platform)
    (hpx : "cisco" ∉ t.platform_exclude)
    (hicmp : ¬ (af = 4 ∧ "icmpv6" ∈ t.protocol))
    (hv : t.verbatim = [])
    (hs : t.source_address = [] ∨
      resolveAddrs excl t.source_address t.source_address_exclude af ≠ [])
    (hd : t.destination_address = [] ∨
      resolveAddrs excl t.destination_address t.destination_address_exclude af ≠ [])
    (hown : t.owner ≠ "")
    (hsplit : pySplit '\n' ("Owner: " ++ t.owner) = ["Owner: " ++ t.owner])
    (htake : pyTake ("Owner: " ++ t.owner) 100 = "Owner: " ++ t.owner)
    (hname : " remark " ++ t.name ≠ " remark " ++ ("Owner: " ++ t.owner))
    (hcomment : (commentRemarks t.comment).count
      (" remark " ++ ("Owner: " ++ t.owner)) = 0)
    (hrules : (termRuleLines excl norm t af).count
      (" remark " ++ ("Owner: " ++ t.owner)) = 0) :
    ((termStrCore excl norm t af).2).count
      (" remark " ++ ("Owner: " ++ t.owner)) = 2 ∧
    ((termStrCore excl norm t af).1).comment =
      t.comment ++ ["Owner: " ++ t.owner, "Owner: " ++ t.owner] := by
  have hnorm := termStrCore_normal excl norm t af hp hpx hicmp hv hs hd
  have hoc : ownerComments t = ["Owner: " ++ t.owner, "Owner: " ++ t.owner] := by
    simp [ownerComments, hown]
  constructor
  · have hcr : commentRemarks (ownerComments t) =
        [" remark " ++ ("Owner: " ++ t.owner),
         " remark " ++ ("Owner: " ++ t.owner)] := by
      rw [hoc]
      simp [commentRemarks, hsplit, htake]
    have hout : (termStrCore excl norm t af).2 =
        [""] ++ [" remark " ++ t.name] ++
          (commentRemarks t.comment ++
            [" remark " ++ ("Owner: " ++ t.owner),
             " remark " ++ ("Owner: " ++ t.owner)]) ++
          termRuleLines excl norm t af := by
      rw [hnorm]
      show headerLines t ++ termRuleLines excl norm t af = _
      rw [headerLines, commentRemarks_append, hcr]
    rw [hout]
    have e1 : (("" : String) ==
        (" remark " ++ ("Owner: " ++ t.owner))) = false := by
      rw [beq_eq_false_iff_ne]
      exact fun h => remark_append_ne_empty _ h.symm
    have e2 : ((" remark " ++ t.name) ==
        (" remark " ++ ("Owner: " ++ t.owner))) = false := by
      rw [beq_eq_false_iff_ne]
      exact hname
    simp [List.count_append, List.count_cons, hcomment, hrules, e1, e2]
  · rw [hnorm, hoc]

/-- Witness for C10 at a concrete input: the rendered output of
`ownerTerm10` holds the line `' remark Owner: bob'` exactly twice. -/
theorem c10_owner_remark_twice_witness :
    ((termStrCore exclId normEmpty ownerTerm10 4).2).count
      (" remark " ++ ("Owner: " ++ "bob")) = 2 ∧
    ((termStrCore exclId normEmpty ownerTerm10 4).1).comment =
      [] ++ ["Owner: " ++ "bob", "Owner: " ++ "bob"] :=
  c10_owner_remark_twice exclId normEmpty ownerTerm10 4 (Or.inl rfl)
    (by decide) (by decide) rfl (Or.inl rfl) (Or.inl rfl) (by decide)
    (by rfl) (by rfl) (by decide) (by rfl) (by rfl)

end CiscoGen
